import Mathlib

/-!
Shallow embedding of the avoda-desktop session scheduler
(`src-tauri/src/main.rs`, `src-tauri/src/activity_monitor.rs`) and proofs of
the specification's claims about it.

Conventions of the embedding:
 - Rust `Result<T, String>` becomes `Except String T`.
 - Timestamps are modelled as `Int` seconds; `chrono` durations become
   integer subtraction.
 - The postgres tables become association lists; a query's success or
   failure is an explicit `Option String` parameter (the error message the
   gateway would produce), since the database itself is an external
   collaborator.
 - The tokio mpsc channel's `try_recv` outcome is an explicit value of
   type `RecvResult` (a command, `Empty`, or `Disconnected`).
 - Atomics accessed by the listener thread are modelled by explicit state
   passing; the interleaving-sensitive part of `stop_timer` is additionally
   modelled as a trace of micro-operations interleaved with adversarial
   listener callbacks, each split into its two separate atomic operations
   (the flag load and the counter increment).
-/

set_option autoImplicit false

deriving instance DecidableEq for Except

namespace Avoda

/-- `TimerStatus` from main.rs: the authoritative scheduler state. -/
inductive TimerStatus
  | Stopped
  | Running
  | Paused
deriving DecidableEq, Repr

/-- `TimerCommand` from main.rs: commands sent to the timer task. -/
inductive TimerCommand
  | Pause
  | Resume
  | Stop
deriving DecidableEq, Repr

/-- A row of the `sessions` table (id, start_time, and the columns written
once at stop). -/
structure SessionRow where
  id : Nat
  start_time : Int
  end_time : Option Int
  key_press_count : Option Int
  mouse_click_count : Option Int
deriving DecidableEq, Repr

/-- The parts of `AppState` (and the DB) that the Tauri commands
read or write.  `command_tx : Bool` models whether a `Sender` is installed
in `command_tx : Arc<Mutex<Option<Sender<TimerCommand>>>>`. -/
structure AppState where
  timer_status : TimerStatus
  command_tx : Bool
  current_session_id : Option Nat
  session_start_time : Option Int
  key_presses : Nat
  mouse_clicks : Nat
  is_session_active : Bool
  sessions : List SessionRow
deriving DecidableEq, Repr

/-- `start_timer` (main.rs lines 234-286).  `dbErr` is the outcome of the
`INSERT INTO sessions` gateway call (`some e` = failure with message `e`),
`newId` the freshly generated session id, `now` the start timestamp.
The order of state mutations follows the source: status check, counter
reset + enable counting, `*status = Running`, record session id and start
time, DB insert (early return on failure), install the command sender. -/
def start_timer (dbErr : Option String) (newId : Nat) (now : Int)
    (s : AppState) : Except String Unit × AppState :=
  if s.timer_status ≠ TimerStatus.Stopped then
    (Except.error "Timer is already running or paused.", s)
  else
    let s := { s with key_presses := 0, mouse_clicks := 0, is_session_active := true }
    let s := { s with timer_status := TimerStatus.Running }
    let s := { s with current_session_id := some newId, session_start_time := some now }
    match dbErr with
    | some e => (Except.error ("Failed to insert session into DB: " ++ e), s)
    | none =>
      let s := { s with sessions :=
        { id := newId, start_time := now, end_time := none,
          key_press_count := none, mouse_click_count := none } :: s.sessions }
      let s := { s with command_tx := true }
      (Except.ok (), s)

/-- The `UPDATE sessions SET end_time, key_press_count, mouse_click_count
WHERE id = $4` of `stop_timer`. -/
def updateSessionRow (rows : List SessionRow) (sid : Nat) (endT : Int)
    (kp mc : Int) : List SessionRow :=
  rows.map fun r =>
    if r.id = sid then
      { r with end_time := some endT, key_press_count := some kp,
               mouse_click_count := some mc }
    else r

/-- Tail of `stop_timer` after the session row was handled: clear the
session id and start time, then `take()` the sender and send `Stop`;
if the send fails or no sender is installed, force status to Stopped. -/
def stop_finalize (sendOk : Bool) (s : AppState) :
    Except String Unit × AppState :=
  let s := { s with current_session_id := none, session_start_time := none }
  if s.command_tx then
    let s := { s with command_tx := false }
    if sendOk then (Except.ok (), s)
    else (Except.ok (), { s with timer_status := TimerStatus.Stopped })
  else
    (Except.ok (), { s with timer_status := TimerStatus.Stopped })

/-- `stop_timer` (main.rs lines 290-349).  `dbErr` is the outcome of the
session `UPDATE`, `sendOk` whether `tx.send(TimerCommand::Stop)` succeeds,
`now` the end timestamp.  Source order: status check, disable counting,
read the two counters, update the session row (early return on DB failure),
clear the session identity, send Stop / force status. -/
def stop_timer (dbErr : Option String) (sendOk : Bool) (now : Int)
    (s : AppState) : Except String Unit × AppState :=
  if s.timer_status = TimerStatus.Stopped then
    (Except.error "Timer is already stopped.", s)
  else
    let s := { s with is_session_active := false }
    let finalKeys : Int := Int.ofNat s.key_presses
    let finalClicks : Int := Int.ofNat s.mouse_clicks
    match s.current_session_id with
    | some sid =>
      match dbErr with
      | some e =>
        (Except.error
          ("Failed to update session end time and activity counts in DB: " ++ e), s)
      | none =>
        stop_finalize sendOk
          { s with sessions := updateSessionRow s.sessions sid now finalKeys finalClicks }
    | none => stop_finalize sendOk s

/-- `pause_timer` (main.rs lines 354-375).  `sendErr` is the outcome of
`tx.send(TimerCommand::Pause)`. -/
def pause_timer (sendErr : Option String) (s : AppState) :
    Except String Unit × AppState :=
  if s.timer_status ≠ TimerStatus.Running then
    (Except.error "Timer is not running.", s)
  else if s.command_tx then
    match sendErr with
    | some e => (Except.error ("Failed to send pause command: " ++ e), s)
    | none => (Except.ok (), s)
  else
    (Except.error "Timer command channel not found, task may have stopped.",
      { s with timer_status := TimerStatus.Stopped })

/-- `resume_timer` (main.rs lines 380-401). -/
def resume_timer (sendErr : Option String) (s : AppState) :
    Except String Unit × AppState :=
  if s.timer_status ≠ TimerStatus.Paused then
    (Except.error "Timer is not paused.", s)
  else if s.command_tx then
    match sendErr with
    | some e => (Except.error ("Failed to send resume command: " ++ e), s)
    | none => (Except.ok (), s)
  else
    (Except.error "Timer command channel not found, task may have stopped.",
      { s with timer_status := TimerStatus.Stopped })

/-- Claim C1: in every state (hence at every point of every call
sequence), an operation invoked in a disallowed state is rejected with its
specific state error and the whole `AppState` — in particular
`TimerStatus` — is unchanged: `start` fails unless Stopped, `pause` fails
unless Running, `resume` fails unless Paused, `stop` fails when Stopped. -/
theorem timer_commands_reject_disallowed_states
    (s : AppState) (dbErr dbErr2 sendErr sendErr2 : Option String)
    (newId : Nat) (now now2 : Int) (sendOk : Bool) :
    (s.timer_status ≠ TimerStatus.Stopped →
      start_timer dbErr newId now s =
        (Except.error "Timer is already running or paused.", s))
    ∧ (s.timer_status ≠ TimerStatus.Running →
      pause_timer sendErr s = (Except.error "Timer is not running.", s))
    ∧ (s.timer_status ≠ TimerStatus.Paused →
      resume_timer sendErr2 s = (Except.error "Timer is not paused.", s))
    ∧ (s.timer_status = TimerStatus.Stopped →
      stop_timer dbErr2 sendOk now2 s =
        (Except.error "Timer is already stopped.", s)) := by
  refine ⟨fun h => ?_, fun h => ?_, fun h => ?_, fun h => ?_⟩ <;>
    simp [start_timer, pause_timer, resume_timer, stop_timer, h]

/-- Witness for C1 at concrete states in each disallowed configuration. -/
theorem timer_commands_reject_disallowed_states_witness :
    (start_timer none 1 0
        ⟨TimerStatus.Running, true, some 0, some 0, 0, 0, true, []⟩ =
      (Except.error "Timer is already running or paused.",
        ⟨TimerStatus.Running, true, some 0, some 0, 0, 0, true, []⟩))
    ∧ (pause_timer none
        ⟨TimerStatus.Paused, true, some 0, some 0, 0, 0, true, []⟩ =
      (Except.error "Timer is not running.",
        ⟨TimerStatus.Paused, true, some 0, some 0, 0, 0, true, []⟩))
    ∧ (resume_timer none
        ⟨TimerStatus.Running, true, some 0, some 0, 0, 0, true, []⟩ =
      (Except.error "Timer is not paused.",
        ⟨TimerStatus.Running, true, some 0, some 0, 0, 0, true, []⟩))
    ∧ (stop_timer none true 5
        ⟨TimerStatus.Stopped, false, none, none, 0, 0, false, []⟩ =
      (Except.error "Timer is already stopped.",
        ⟨TimerStatus.Stopped, false, none, none, 0, 0, false, []⟩)) :=
  ⟨(timer_commands_reject_disallowed_states
      ⟨TimerStatus.Running, true, some 0, some 0, 0, 0, true, []⟩
      none none none none 1 0 5 true).1 (by decide),
   (timer_commands_reject_disallowed_states
      ⟨TimerStatus.Paused, true, some 0, some 0, 0, 0, true, []⟩
      none none none none 1 0 5 true).2.1 (by decide),
   (timer_commands_reject_disallowed_states
      ⟨TimerStatus.Running, true, some 0, some 0, 0, 0, true, []⟩
      none none none none 1 0 5 true).2.2.1 (by decide),
   (timer_commands_reject_disallowed_states
      ⟨TimerStatus.Stopped, false, none, none, 0, 0, false, []⟩
      none none none none 1 0 5 true).2.2.2 (by decide)⟩

/-- The freshly booted `AppState` (main.rs lines 638-646). -/
def initialAppState : AppState :=
  { timer_status := TimerStatus.Stopped
    command_tx := false
    current_session_id := none
    session_start_time := none
    key_presses := 0
    mouse_clicks := 0
    is_session_active := false
    sessions := [] }

/-- Counterexample to claim C2: starting from the initial (Stopped) state,
a failing session-row insert makes `start_timer` return the error, but
`TimerStatus` is already `Running` (not Stopped), counting is enabled, and
a session identity is recorded — nothing is rolled back. -/
theorem start_timer_db_failure_not_rolled_back :
    (start_timer (some "boom") 7 3 initialAppState).1 =
        Except.error "Failed to insert session into DB: boom"
    ∧ (start_timer (some "boom") 7 3 initialAppState).2.timer_status =
        TimerStatus.Running
    ∧ (start_timer (some "boom") 7 3 initialAppState).2.is_session_active = true
    ∧ (start_timer (some "boom") 7 3 initialAppState).2.current_session_id =
        some 7 := by
  decide

/-- Amended claim C2: if the session-row insert fails during `start`,
the error is surfaced to the caller, but `start_timer` has already reset
the counters, enabled counting, set status to `Running`, and recorded the
session id and start time; no rollback happens, so a retry of `start` is
rejected as already active. -/
theorem start_timer_db_failure_state (s : AppState) (e : String)
    (newId : Nat) (now : Int) (h : s.timer_status = TimerStatus.Stopped) :
    start_timer (some e) newId now s =
      (Except.error ("Failed to insert session into DB: " ++ e),
        { s with key_presses := 0, mouse_clicks := 0, is_session_active := true,
                 timer_status := TimerStatus.Running,
                 current_session_id := some newId,
                 session_start_time := some now })
    ∧ (∀ (dbErr : Option String) (id2 : Nat) (now2 : Int),
        (start_timer dbErr id2 now2 (start_timer (some e) newId now s).2).1 =
            Except.error "Timer is already running or paused.") := by
  constructor
  · simp [start_timer, h]
  · intro dbErr id2 now2
    simp [start_timer, h]

/-- Witness for the amended C2 at the initial state. -/
theorem start_timer_db_failure_state_witness :
    initialAppState.timer_status = TimerStatus.Stopped
    ∧ (start_timer (some "boom") 7 3 initialAppState =
        (Except.error "Failed to insert session into DB: boom",
          { initialAppState with key_presses := 0, mouse_clicks := 0,
                                 is_session_active := true,
                                 timer_status := TimerStatus.Running,
                                 current_session_id := some 7,
                                 session_start_time := some 3 })
      ∧ (∀ (dbErr : Option String) (id2 : Nat) (now2 : Int),
          (start_timer dbErr id2 now2
              (start_timer (some "boom") 7 3 initialAppState).2).1 =
            Except.error "Timer is already running or paused.")) :=
  ⟨by decide,
   start_timer_db_failure_state initialAppState "boom" 7 3 (by decide)⟩

/-! ## CaptureScheduler: one cycle of `timer_task` (main.rs lines 165-227) -/

/-- The scheduler task's local view: its internal `is_paused` flag and the
shared `TimerStatus`. -/
structure SchedState where
  is_paused : Bool
  timer_status : TimerStatus
deriving DecidableEq, Repr

/-- Outcome of one `command_rx.try_recv()` call. -/
inductive RecvResult
  | cmd (c : TimerCommand)
  | empty
  | disconnected
deriving DecidableEq, Repr

/-- Result of one iteration of the `timer_task` loop. -/
structure CycleResult where
  state : SchedState
  exited : Bool
  captured : Bool
deriving DecidableEq, Repr

/-- The pre-sleep drain of the command queue (main.rs lines 167-199).
Returns the new state and whether the loop `break`s (task terminates). -/
def drainTop (r : RecvResult) (s : SchedState) : SchedState × Bool :=
  match r with
  | .cmd .Pause => ({ is_paused := true, timer_status := TimerStatus.Paused }, false)
  | .cmd .Resume => ({ is_paused := false, timer_status := TimerStatus.Running }, false)
  | .cmd .Stop => ({ s with timer_status := TimerStatus.Stopped }, true)
  | .empty => (s, false)
  | .disconnected => ({ s with timer_status := TimerStatus.Stopped }, true)

/-- The post-sleep drain (main.rs lines 208-213).  Returns the new state,
whether the loop `break`s, and whether it `continue`s (skipping capture).
Note the final arm: `Err(_)` catches `Empty` and `Disconnected` alike. -/
def drainAfterSleep (r : RecvResult) (s : SchedState) :
    SchedState × Bool × Bool :=
  match r with
  | .cmd .Pause => ({ is_paused := true, timer_status := TimerStatus.Paused }, false, true)
  | .cmd .Resume => ({ is_paused := false, timer_status := TimerStatus.Running }, false, false)
  | .cmd .Stop => ({ s with timer_status := TimerStatus.Stopped }, true, false)
  | .empty => (s, false, false)
  | .disconnected => (s, false, false)

/-- One iteration of the `timer_task` loop: pre-sleep drain with result
`r1`; if not terminated and not paused, the randomized sleep, the
post-sleep drain with result `r2`, and — if still unpaused — the capture;
if paused, only the short fixed sleep. -/
def timerCycle (r1 r2 : RecvResult) (s : SchedState) : CycleResult :=
  let d := drainTop r1 s
  if d.2 then { state := d.1, exited := true, captured := false }
  else if d.1.is_paused then
    { state := d.1, exited := false, captured := false }
  else
    let a := drainAfterSleep r2 d.1
    if a.2.1 then { state := a.1, exited := true, captured := false }
    else if a.2.2 then { state := a.1, exited := false, captured := false }
    else if a.1.is_paused then { state := a.1, exited := false, captured := false }
    else { state := a.1, exited := false, captured := true }

/-- The scheduler state while running unpaused. -/
def runningSched : SchedState :=
  { is_paused := false, timer_status := TimerStatus.Running }

/-- Counterexample to claim C3: finding the queue disconnected at the
post-sleep drain is NOT treated like `Stop`.  With the queue empty before
the sleep and disconnected after it, the cycle does not terminate, leaves
`TimerStatus` at `Running`, and still captures — whereas receiving `Stop`
there terminates with `TimerStatus.Stopped` and no capture. -/
theorem timerCycle_disconnected_after_sleep_not_stop :
    (timerCycle RecvResult.empty RecvResult.disconnected runningSched).exited = false
    ∧ (timerCycle RecvResult.empty RecvResult.disconnected runningSched).captured = true
    ∧ (timerCycle RecvResult.empty RecvResult.disconnected
          runningSched).state.timer_status = TimerStatus.Running
    ∧ timerCycle RecvResult.empty RecvResult.disconnected runningSched ≠
        timerCycle RecvResult.empty (RecvResult.cmd TimerCommand.Stop) runningSched := by
  refine ⟨rfl, rfl, rfl, ?_⟩
  decide

/-- Amended claim C3: the post-sleep drain handles the three commands with
the same state transition and termination behavior as the pre-sleep drain,
but its error arm ignores `Disconnected` just like `Empty`: a queue found
disconnected after the sleep changes nothing in that cycle (the capture
still happens if unpaused), and the disconnection is only acted on at the
next iteration's pre-sleep drain, which stops the task without capturing. -/
theorem timerCycle_drain_semantics :
    (∀ (c : TimerCommand) (s : SchedState),
      (drainAfterSleep (RecvResult.cmd c) s).1 = (drainTop (RecvResult.cmd c) s).1
      ∧ (drainAfterSleep (RecvResult.cmd c) s).2.1 = (drainTop (RecvResult.cmd c) s).2)
    ∧ (∀ (r1 : RecvResult) (s : SchedState),
      timerCycle r1 RecvResult.disconnected s = timerCycle r1 RecvResult.empty s)
    ∧ (∀ (r2 : RecvResult) (s : SchedState),
      timerCycle RecvResult.disconnected r2 s =
        { state := { s with timer_status := TimerStatus.Stopped },
          exited := true, captured := false }) := by
  refine ⟨?_, ?_, ?_⟩
  · intro c s
    cases c <;> exact ⟨rfl, rfl⟩
  · intro r1 s
    rcases s with ⟨p, st⟩
    rcases r1 with c | _ | _ <;> [skip; cases p <;> rfl; rfl]
    cases c <;> cases p <;> rfl
  · intro r2 s
    rfl

/-! ## Interleaving model of `stop_timer`'s counter snapshot
(main.rs lines 297-323) against the listener thread

`stop_timer` executes, in source order, the micro-operations
`disableCounting` (the `is_session_active.store(false)`), `readKeys`,
`readClicks` (the two counter `load`s), and `writeRow` (the session
`UPDATE` binding the two loaded values).  The rdev callback is not
atomic: it first loads the flag (activity_monitor.rs line 30) and only
later performs the `fetch_add` (lines 36 and 41), both `Relaxed`.  Each
callback is therefore modelled as two separate events: an `arm` (the flag
load, recording an in-flight increment when the flag was seen true) and a
`land` (the `fetch_add` of a previously armed callback).  A callback that
loads the flag after the disable never increments, but one armed before
the disable may land at any later point — including between the disable
and the counter loads. -/

/-- A micro-operation of `stop_timer` or one half of a listener callback. -/
inductive StopEv
  | disableCounting
  | readKeys
  | readClicks
  | writeRow
  | armKey
  | landKey
  | armClick
  | landClick
deriving DecidableEq, Repr

/-- State shared between `stop_timer` and the listener: the counting flag,
the two atomic counters, the numbers of armed-but-not-landed key and
click callbacks, the two values `stop_timer` has loaded so far, and the
persisted row (key/click counts), if written. -/
structure SnapState where
  enabled : Bool
  key_presses : Nat
  mouse_clicks : Nat
  pendingKey : Nat
  pendingClick : Nat
  loadedKeys : Option Nat
  loadedClicks : Option Nat
  row : Option (Nat × Nat)
deriving DecidableEq, Repr

/-- Effect of one event on the shared state.  An `arm` whose flag load
sees false is the callback's early return; a `land` with nothing armed is
a no-op (no such callback exists). -/
def stopStep (s : SnapState) : StopEv → SnapState
  | .disableCounting => { s with enabled := false }
  | .readKeys => { s with loadedKeys := some s.key_presses }
  | .readClicks => { s with loadedClicks := some s.mouse_clicks }
  | .writeRow => { s with row := some (s.loadedKeys.getD 0, s.loadedClicks.getD 0) }
  | .armKey => if s.enabled then { s with pendingKey := s.pendingKey + 1 } else s
  | .landKey =>
      match s.pendingKey with
      | 0 => s
      | pk + 1 => { s with pendingKey := pk, key_presses := s.key_presses + 1 }
  | .armClick => if s.enabled then { s with pendingClick := s.pendingClick + 1 } else s
  | .landClick =>
      match s.pendingClick with
      | 0 => s
      | pc + 1 => { s with pendingClick := pc, mouse_clicks := s.mouse_clicks + 1 }

/-- Run a trace of events from a state. -/
def runStop (s : SnapState) : List StopEv → SnapState
  | [] => s
  | e :: es => runStop (stopStep s e) es

/-- Whether an event is one of `stop_timer`'s own micro-operations (as
opposed to half of a listener callback). -/
def isStopOp : StopEv → Bool
  | .disableCounting => true
  | .readKeys => true
  | .readClicks => true
  | .writeRow => true
  | .armKey => false
  | .landKey => false
  | .armClick => false
  | .landClick => false

theorem runStop_append (a b : List StopEv) (s : SnapState) :
    runStop s (a ++ b) = runStop (runStop s a) b := by
  induction a generalizing s with
  | nil => rfl
  | cons e es ih => simp [runStop, ih]

theorem stopStep_listener_row (s : SnapState) (e : StopEv)
    (he : isStopOp e = false) :
    (stopStep s e).row = s.row
    ∧ (stopStep s e).loadedKeys = s.loadedKeys
    ∧ (stopStep s e).loadedClicks = s.loadedClicks := by
  cases e
  case disableCounting => simp [isStopOp] at he
  case readKeys => simp [isStopOp] at he
  case readClicks => simp [isStopOp] at he
  case writeRow => simp [isStopOp] at he
  case armKey => by_cases h2 : s.enabled <;> simp [stopStep, h2]
  case landKey => cases hpk : s.pendingKey <;> simp [stopStep, hpk]
  case armClick => by_cases h2 : s.enabled <;> simp [stopStep, h2]
  case landClick => cases hpc : s.pendingClick <;> simp [stopStep, hpc]

theorem stopStep_arm_disabled (s : SnapState) (hd : s.enabled = false) :
    stopStep s StopEv.armKey = s ∧ stopStep s StopEv.armClick = s := by
  simp [stopStep, hd]

theorem runStop_env_row (t : List StopEv) (s : SnapState)
    (ht : t.filter isStopOp = []) : (runStop s t).row = s.row := by
  induction t generalizing s with
  | nil => rfl
  | cons e es ih =>
    cases hiso : isStopOp e with
    | true => simp [List.filter_cons, hiso] at ht
    | false =>
      have ht2 : es.filter isStopOp = [] := by
        simpa [List.filter_cons, hiso] using ht
      show (runStop (stopStep s e) es).row = s.row
      rw [ih _ ht2, (stopStep_listener_row s e hiso).1]

theorem runStop_write_phase (t : List StopEv) (s : SnapState)
    (ht : t.filter isStopOp = [StopEv.writeRow]) :
    (runStop s t).row = some (s.loadedKeys.getD 0, s.loadedClicks.getD 0) := by
  induction t generalizing s with
  | nil => simp [List.filter] at ht
  | cons e es ih =>
    cases hiso : isStopOp e with
    | false =>
      have ht2 : es.filter isStopOp = [StopEv.writeRow] := by
        simpa [List.filter_cons, hiso] using ht
      show (runStop (stopStep s e) es).row = _
      rw [ih _ ht2, (stopStep_listener_row s e hiso).2.1,
        (stopStep_listener_row s e hiso).2.2]
    | true =>
      have ht2 : e :: es.filter isStopOp = [StopEv.writeRow] := by
        simpa [List.filter_cons, hiso] using ht
      obtain ⟨rfl, ht3⟩ := List.cons_eq_cons.mp ht2
      show (runStop (stopStep s StopEv.writeRow) es).row = _
      rw [runStop_env_row es _ ht3]
      simp [stopStep]

theorem runStop_clicks_phase (t : List StopEv) (s : SnapState)
    (hd : s.enabled = false)
    (ht : t.filter isStopOp = [StopEv.readClicks, StopEv.writeRow]) :
    ∃ eC, eC ≤ s.pendingClick ∧
      (runStop s t).row = some (s.loadedKeys.getD 0, s.mouse_clicks + eC) := by
  induction t generalizing s with
  | nil => simp [List.filter] at ht
  | cons e es ih =>
    cases hiso : isStopOp e with
    | true =>
      have ht2 : e :: es.filter isStopOp =
          [StopEv.readClicks, StopEv.writeRow] := by
        simpa [List.filter_cons, hiso] using ht
      obtain ⟨rfl, ht3⟩ := List.cons_eq_cons.mp ht2
      refine ⟨0, Nat.zero_le _, ?_⟩
      show (runStop (stopStep s StopEv.readClicks) es).row = _
      rw [runStop_write_phase es _ ht3]
      simp [stopStep]
    | false =>
      have ht2 : es.filter isStopOp = [StopEv.readClicks, StopEv.writeRow] := by
        simpa [List.filter_cons, hiso] using ht
      cases e
      case disableCounting => simp [isStopOp] at hiso
      case readKeys => simp [isStopOp] at hiso
      case readClicks => simp [isStopOp] at hiso
      case writeRow => simp [isStopOp] at hiso
      case armKey =>
        show ∃ eC, eC ≤ s.pendingClick ∧
          (runStop (stopStep s StopEv.armKey) es).row =
            some (s.loadedKeys.getD 0, s.mouse_clicks + eC)
        rw [(stopStep_arm_disabled s hd).1]
        exact ih s hd ht2
      case armClick =>
        show ∃ eC, eC ≤ s.pendingClick ∧
          (runStop (stopStep s StopEv.armClick) es).row =
            some (s.loadedKeys.getD 0, s.mouse_clicks + eC)
        rw [(stopStep_arm_disabled s hd).2]
        exact ih s hd ht2
      case landKey =>
        obtain ⟨n, hpk⟩ : ∃ n, s.pendingKey = n := ⟨_, rfl⟩
        cases n with
        | zero =>
          show ∃ eC, eC ≤ s.pendingClick ∧
            (runStop (stopStep s StopEv.landKey) es).row =
              some (s.loadedKeys.getD 0, s.mouse_clicks + eC)
          rw [show stopStep s StopEv.landKey = s from by simp [stopStep, hpk]]
          exact ih s hd ht2
        | succ pk =>
          obtain ⟨eC, h1, h2⟩ :=
            ih { s with pendingKey := pk, key_presses := s.key_presses + 1 }
              hd ht2
          have h1a : eC ≤ s.pendingClick := h1
          refine ⟨eC, h1a, ?_⟩
          show (runStop (stopStep s StopEv.landKey) es).row =
            some (s.loadedKeys.getD 0, s.mouse_clicks + eC)
          rw [show stopStep s StopEv.landKey =
              { s with pendingKey := pk, key_presses := s.key_presses + 1 }
            from by simp [stopStep, hpk], h2]
      case landClick =>
        obtain ⟨n, hpc⟩ : ∃ n, s.pendingClick = n := ⟨_, rfl⟩
        cases n with
        | zero =>
          show ∃ eC, eC ≤ s.pendingClick ∧
            (runStop (stopStep s StopEv.landClick) es).row =
              some (s.loadedKeys.getD 0, s.mouse_clicks + eC)
          rw [show stopStep s StopEv.landClick = s from by simp [stopStep, hpc]]
          exact ih s hd ht2
        | succ pc =>
          obtain ⟨eC, h1, h2⟩ :=
            ih { s with pendingClick := pc, mouse_clicks := s.mouse_clicks + 1 }
              hd ht2
          have h1a : eC ≤ pc := h1
          refine ⟨eC + 1, by omega, ?_⟩
          show (runStop (stopStep s StopEv.landClick) es).row =
            some (s.loadedKeys.getD 0, s.mouse_clicks + (eC + 1))
          rw [show stopStep s StopEv.landClick =
              { s with pendingClick := pc, mouse_clicks := s.mouse_clicks + 1 }
            from by simp [stopStep, hpc], h2]
          have harith : s.mouse_clicks + 1 + eC = s.mouse_clicks + (eC + 1) := by
            omega
          simp [harith]

theorem runStop_keys_phase (t : List StopEv) (s : SnapState)
    (hd : s.enabled = false)
    (ht : t.filter isStopOp =
      [StopEv.readKeys, StopEv.readClicks, StopEv.writeRow]) :
    ∃ eK eC, eK ≤ s.pendingKey ∧ eC ≤ s.pendingClick ∧
      (runStop s t).row = some (s.key_presses + eK, s.mouse_clicks + eC) := by
  induction t generalizing s with
  | nil => simp [List.filter] at ht
  | cons e es ih =>
    cases hiso : isStopOp e with
    | true =>
      have ht2 : e :: es.filter isStopOp =
          [StopEv.readKeys, StopEv.readClicks, StopEv.writeRow] := by
        simpa [List.filter_cons, hiso] using ht
      obtain ⟨rfl, ht3⟩ := List.cons_eq_cons.mp ht2
      obtain ⟨eC, h1, h2⟩ := runStop_clicks_phase es
        { s with loadedKeys := some s.key_presses } hd ht3
      have h1a : eC ≤ s.pendingClick := h1
      refine ⟨0, eC, Nat.zero_le _, h1a, ?_⟩
      show (runStop { s with loadedKeys := some s.key_presses } es).row =
        some (s.key_presses + 0, s.mouse_clicks + eC)
      rw [h2]
      simp
    | false =>
      have ht2 : es.filter isStopOp =
          [StopEv.readKeys, StopEv.readClicks, StopEv.writeRow] := by
        simpa [List.filter_cons, hiso] using ht
      cases e
      case disableCounting => simp [isStopOp] at hiso
      case readKeys => simp [isStopOp] at hiso
      case readClicks => simp [isStopOp] at hiso
      case writeRow => simp [isStopOp] at hiso
      case armKey =>
        show ∃ eK eC, eK ≤ s.pendingKey ∧ eC ≤ s.pendingClick ∧
          (runStop (stopStep s StopEv.armKey) es).row =
            some (s.key_presses + eK, s.mouse_clicks + eC)
        rw [(stopStep_arm_disabled s hd).1]
        exact ih s hd ht2
      case armClick =>
        show ∃ eK eC, eK ≤ s.pendingKey ∧ eC ≤ s.pendingClick ∧
          (runStop (stopStep s StopEv.armClick) es).row =
            some (s.key_presses + eK, s.mouse_clicks + eC)
        rw [(stopStep_arm_disabled s hd).2]
        exact ih s hd ht2
      case landKey =>
        obtain ⟨n, hpk⟩ : ∃ n, s.pendingKey = n := ⟨_, rfl⟩
        cases n with
        | zero =>
          show ∃ eK eC, eK ≤ s.pendingKey ∧ eC ≤ s.pendingClick ∧
            (runStop (stopStep s StopEv.landKey) es).row =
              some (s.key_presses + eK, s.mouse_clicks + eC)
          rw [show stopStep s StopEv.landKey = s from by simp [stopStep, hpk]]
          exact ih s hd ht2
        | succ pk =>
          obtain ⟨eK, eC, h1, h2, h3⟩ :=
            ih { s with pendingKey := pk, key_presses := s.key_presses + 1 }
              hd ht2
          have h1a : eK ≤ pk := h1
          have h2a : eC ≤ s.pendingClick := h2
          refine ⟨eK + 1, eC, by omega, h2a, ?_⟩
          show (runStop (stopStep s StopEv.landKey) es).row =
            some (s.key_presses + (eK + 1), s.mouse_clicks + eC)
          rw [show stopStep s StopEv.landKey =
              { s with pendingKey := pk, key_presses := s.key_presses + 1 }
            from by simp [stopStep, hpk], h3]
          have harith : s.key_presses + 1 + eK = s.key_presses + (eK + 1) := by
            omega
          simp [harith]
      case landClick =>
        obtain ⟨n, hpc⟩ : ∃ n, s.pendingClick = n := ⟨_, rfl⟩
        cases n with
        | zero =>
          show ∃ eK eC, eK ≤ s.pendingKey ∧ eC ≤ s.pendingClick ∧
            (runStop (stopStep s StopEv.landClick) es).row =
              some (s.key_presses + eK, s.mouse_clicks + eC)
          rw [show stopStep s StopEv.landClick = s from by simp [stopStep, hpc]]
          exact ih s hd ht2
        | succ pc =>
          obtain ⟨eK, eC, h1, h2, h3⟩ :=
            ih { s with pendingClick := pc, mouse_clicks := s.mouse_clicks + 1 }
              hd ht2
          have h1a : eK ≤ s.pendingKey := h1
          have h2a : eC ≤ pc := h2
          refine ⟨eK, eC + 1, h1a, by omega, ?_⟩
          show (runStop (stopStep s StopEv.landClick) es).row =
            some (s.key_presses + eK, s.mouse_clicks + (eC + 1))
          rw [show stopStep s StopEv.landClick =
              { s with pendingClick := pc, mouse_clicks := s.mouse_clicks + 1 }
            from by simp [stopStep, hpc], h3]
          have harith : s.mouse_clicks + 1 + eC = s.mouse_clicks + (eC + 1) := by
            omega
          simp [harith]

/-- The shared state at the moment `stop_timer` begins, with counting
still enabled and no callback in flight. -/
def liveSnap : SnapState :=
  { enabled := true, key_presses := 0, mouse_clicks := 0,
    pendingKey := 0, pendingClick := 0,
    loadedKeys := none, loadedClicks := none, row := none }

/-- Counterexample to claim C4 as stated: the listener callback loads the
flag and increments in two separate relaxed atomic operations, so a key
callback that saw the flag true before the disable may perform its
increment between the disable and `stop_timer`'s counter loads.  In the
concrete interleaving arm-key, disable, land-key, read, read, write — a
legal interleaving of `stop_timer`'s micro-operations with one listener
callback — the persisted row is (1, 0) although the counters at the
moment counting was disabled read (0, 0). -/
theorem stop_snapshot_misses_inflight_increment :
    ([StopEv.armKey].filter isStopOp = [])
    ∧ ([StopEv.landKey, StopEv.readKeys, StopEv.readClicks,
        StopEv.writeRow].filter isStopOp =
        [StopEv.readKeys, StopEv.readClicks, StopEv.writeRow])
    ∧ (runStop liveSnap [StopEv.armKey]).key_presses = 0
    ∧ (runStop liveSnap [StopEv.armKey]).mouse_clicks = 0
    ∧ (runStop liveSnap ([StopEv.armKey] ++ StopEv.disableCounting ::
        [StopEv.landKey, StopEv.readKeys, StopEv.readClicks,
          StopEv.writeRow])).row = some (1, 0)
    ∧ (runStop liveSnap ([StopEv.armKey] ++ StopEv.disableCounting ::
        [StopEv.landKey, StopEv.readKeys, StopEv.readClicks,
          StopEv.writeRow])).row ≠
        some ((runStop liveSnap [StopEv.armKey]).key_presses,
          (runStop liveSnap [StopEv.armKey]).mouse_clicks) := by
  decide

/-- Claim C4 (amended): `stop_timer` disables counting strictly before
its two counter loads, and the persisted row carries exactly the loaded
values; but because a listener callback's flag check and increment are
two separate atomic operations, the persisted values equal the counters
at the disable moment plus at most the increments then in flight (flag
check already passed, increment still pending).  Increments whose flag
check happens after the disable are never included, and when no callback
is in flight at the disable the row is exactly the disable-point
snapshot. -/
theorem stop_persists_snapshot_within_inflight
    (pre mid : List StopEv) (s : SnapState)
    (_hpre : pre.filter isStopOp = [])
    (hmid : mid.filter isStopOp =
      [StopEv.readKeys, StopEv.readClicks, StopEv.writeRow]) :
    (∃ eK eC, eK ≤ (runStop s pre).pendingKey
      ∧ eC ≤ (runStop s pre).pendingClick
      ∧ (runStop s (pre ++ StopEv.disableCounting :: mid)).row =
          some ((runStop s pre).key_presses + eK,
            (runStop s pre).mouse_clicks + eC))
    ∧ ((runStop s pre).pendingKey = 0 → (runStop s pre).pendingClick = 0 →
        (runStop s (pre ++ StopEv.disableCounting :: mid)).row =
          some ((runStop s pre).key_presses, (runStop s pre).mouse_clicks)) := by
  obtain ⟨eK, eC, h1, h2, h3⟩ := runStop_keys_phase mid
    (stopStep (runStop s pre) StopEv.disableCounting) rfl hmid
  have h1a : eK ≤ (runStop s pre).pendingKey := h1
  have h2a : eC ≤ (runStop s pre).pendingClick := h2
  have h3a : (runStop s (pre ++ StopEv.disableCounting :: mid)).row =
      some ((runStop s pre).key_presses + eK,
        (runStop s pre).mouse_clicks + eC) := by
    rw [runStop_append]
    exact h3
  refine ⟨⟨eK, eC, h1a, h2a, h3a⟩, ?_⟩
  intro hk hc
  have heK : eK = 0 := by omega
  have heC : eC = 0 := by omega
  rw [h3a, heK, heC]
  simp

/-- A prefix trace for the C4 witness: two key presses and one click
complete before the disable, one further key callback has passed its flag
check but not yet incremented. -/
def preTrace : List StopEv :=
  [StopEv.armKey, StopEv.landKey, StopEv.armKey, StopEv.landKey,
    StopEv.armClick, StopEv.landClick, StopEv.armKey]

/-- The post-disable trace for the C4 witness: the in-flight key callback
lands between the disable and the counter loads. -/
def midTrace : List StopEv :=
  [StopEv.landKey, StopEv.readKeys, StopEv.readClicks, StopEv.writeRow]

/-- Witness for the amended C4: with counters (2, 1) and one key callback
in flight at the disable, every conclusion of the theorem holds for the
concrete interleaving in which that callback lands before the loads. -/
theorem stop_persists_snapshot_within_inflight_witness :
    preTrace.filter isStopOp = []
    ∧ midTrace.filter isStopOp =
        [StopEv.readKeys, StopEv.readClicks, StopEv.writeRow]
    ∧ ((∃ eK eC, eK ≤ (runStop liveSnap preTrace).pendingKey
        ∧ eC ≤ (runStop liveSnap preTrace).pendingClick
        ∧ (runStop liveSnap
            (preTrace ++ StopEv.disableCounting :: midTrace)).row =
            some ((runStop liveSnap preTrace).key_presses + eK,
              (runStop liveSnap preTrace).mouse_clicks + eC))
      ∧ ((runStop liveSnap preTrace).pendingKey = 0 →
          (runStop liveSnap preTrace).pendingClick = 0 →
          (runStop liveSnap
            (preTrace ++ StopEv.disableCounting :: midTrace)).row =
            some ((runStop liveSnap preTrace).key_presses,
              (runStop liveSnap preTrace).mouse_clicks))) :=
  ⟨by decide, by decide,
   stop_persists_snapshot_within_inflight preTrace midTrace liveSnap
     (by decide) (by decide)⟩

/-! ## `get_elapsed_time` (main.rs lines 443-462) -/

/-- `get_elapsed_time`: timestamps are `Int` seconds; `now.signed_duration_since
(start_time).num_seconds()` becomes `now - start_time`, and the
`.max(0) as u64` becomes `(max _ 0).toNat`. -/
def get_elapsed_time (status : TimerStatus) (session_start_time : Option Int)
    (now : Int) : Except String Nat :=
  match status with
  | TimerStatus.Running | TimerStatus.Paused =>
    match session_start_time with
    | some start_time => Except.ok (max (now - start_time) 0).toNat
    | none => Except.ok 0
  | TimerStatus.Stopped => Except.ok 0

/-- Claim C5: `get_elapsed_time` returns the whole number of seconds since
the recorded start time whenever status is Running or Paused (the same
formula for both, so pause neither resets nor freezes it), returns 0
whenever status is Stopped, is 0 at the instant of start, and is
non-decreasing in the current time. -/
theorem get_elapsed_time_spec :
    (∀ (st : TimerStatus) (startT now : Int),
      (st = TimerStatus.Running ∨ st = TimerStatus.Paused) → startT ≤ now →
        get_elapsed_time st (some startT) now = Except.ok (now - startT).toNat)
    ∧ (∀ (sOpt : Option Int) (now : Int),
        get_elapsed_time TimerStatus.Stopped sOpt now = Except.ok 0)
    ∧ (∀ (st : TimerStatus) (startT : Int),
        get_elapsed_time st (some startT) startT = Except.ok 0)
    ∧ (∀ (st : TimerStatus) (sOpt : Option Int) (n1 n2 : Int) (a b : Nat),
        n1 ≤ n2 →
        get_elapsed_time st sOpt n1 = Except.ok a →
        get_elapsed_time st sOpt n2 = Except.ok b → a ≤ b) := by
  refine ⟨?_, ?_, ?_, ?_⟩
  · rintro st startT now (rfl | rfl) h <;>
      simp [get_elapsed_time, max_eq_left (by omega : (0:Int) ≤ now - startT)]
  · intro sOpt now
    rfl
  · intro st startT
    cases st <;> simp [get_elapsed_time]
  · intro st sOpt n1 n2 a b h h1 h2
    cases st <;> cases sOpt <;>
      simp only [get_elapsed_time, Except.ok.injEq] at h1 h2 <;> omega

/-- Witness for C5: at start = 10 and now = 17 the Running and Paused
readings are both 7 seconds; Stopped reads 0; at now = start it reads 0;
and 7 ≤ the reading at now = 25. -/
theorem get_elapsed_time_spec_witness :
    get_elapsed_time TimerStatus.Running (some 10) 17 = Except.ok 7
    ∧ get_elapsed_time TimerStatus.Paused (some 10) 17 = Except.ok 7
    ∧ get_elapsed_time TimerStatus.Stopped (some 10) 17 = Except.ok 0
    ∧ get_elapsed_time TimerStatus.Running (some 10) 10 = Except.ok 0
    ∧ (7 : Nat) ≤ 15 :=
  ⟨get_elapsed_time_spec.1 TimerStatus.Running 10 17 (Or.inl rfl) (by decide),
   get_elapsed_time_spec.1 TimerStatus.Paused 10 17 (Or.inr rfl) (by decide),
   get_elapsed_time_spec.2.1 (some 10) 17,
   get_elapsed_time_spec.2.2.1 TimerStatus.Running 10,
   get_elapsed_time_spec.2.2.2 TimerStatus.Running (some 10) 17 25 7 15
     (by decide) (by decide) (by decide)⟩

/-- Claim C9: `get_elapsed_time` never fails and never returns a negative
value — it always returns `Except.ok` of a natural number, clamps to 0
when the clock reads earlier than the recorded start, and returns 0
instead of erroring when Running or Paused with no recorded start time. -/
theorem get_elapsed_time_total_and_clamped :
    (∀ (st : TimerStatus) (sOpt : Option Int) (now : Int),
      ∃ v : Nat, get_elapsed_time st sOpt now = Except.ok v)
    ∧ (∀ (st : TimerStatus) (startT now : Int), now < startT →
        get_elapsed_time st (some startT) now = Except.ok 0)
    ∧ (∀ (st : TimerStatus) (now : Int),
        (st = TimerStatus.Running ∨ st = TimerStatus.Paused) →
        get_elapsed_time st none now = Except.ok 0) := by
  refine ⟨?_, ?_, ?_⟩
  · intro st sOpt now
    cases st <;> cases sOpt <;> exact ⟨_, rfl⟩
  · intro st startT now h
    cases st <;>
      simp [get_elapsed_time, max_eq_right (by omega : now - startT ≤ (0:Int))]
  · rintro st now (rfl | rfl) <;> rfl

/-- Witness for C9 at a clock 5 seconds behind the recorded start. -/
theorem get_elapsed_time_total_and_clamped_witness :
    (∃ v : Nat, get_elapsed_time TimerStatus.Running (some 20) 15 = Except.ok v)
    ∧ get_elapsed_time TimerStatus.Running (some 20) 15 = Except.ok 0
    ∧ get_elapsed_time TimerStatus.Paused none 15 = Except.ok 0 :=
  ⟨get_elapsed_time_total_and_clamped.1 TimerStatus.Running (some 20) 15,
   get_elapsed_time_total_and_clamped.2.1 TimerStatus.Running 20 15 (by decide),
   get_elapsed_time_total_and_clamped.2.2 TimerStatus.Paused 15 (Or.inr rfl)⟩

/-! ## The randomized capture delay (main.rs lines 201-205)

`rand::thread_rng().gen_range(4..=10)` draws uniformly from the inclusive
integer range.  The external `rand` crate is modelled by its contract: a
uniform word `r` from the source reduced onto the `hi - lo + 1` residues,
shifted to `lo`. -/

/-- Model of `gen_range(lo..=hi)` applied to a uniform source value `r`. -/
def gen_range (lo hi r : Nat) : Nat := lo + r % (hi + 1 - lo)

theorem gen_range_period (N r : Nat) :
    gen_range 4 10 (7 * N + r) = gen_range 4 10 r := by
  simp [gen_range, Nat.mul_add_mod]

theorem gen_range_count_window (v : Nat) (h4 : 4 ≤ v) (h10 : v ≤ 10) :
    (List.range 7).countP (fun r => gen_range 4 10 r == v) = 1 := by
  interval_cases v <;> decide

/-- Claim C6: every capture delay drawn by the scheduler lies in the
closed integer range 4..10, and the draw is uniform over that range: for
every value v in the range and every whole number of periods of the
uniform source, v is drawn exactly once per period (frequency exactly
1/7). -/
theorem capture_delay_range_and_uniform :
    (∀ r : Nat, 4 ≤ gen_range 4 10 r ∧ gen_range 4 10 r ≤ 10)
    ∧ (∀ (v N : Nat), 4 ≤ v → v ≤ 10 →
        (List.range (7 * N)).countP (fun r => gen_range 4 10 r == v) = N) := by
  constructor
  · intro r
    have : r % 7 < 7 := Nat.mod_lt r (by decide)
    unfold gen_range
    omega
  · intro v N h4 h10
    induction N with
    | zero => rfl
    | succ n ih =>
      have hsplit : List.range (7 * (n + 1)) =
          List.range (7 * n) ++ (List.range 7).map (fun r => 7 * n + r) := by
        rw [Nat.mul_succ, List.range_add]
      rw [hsplit, List.countP_append, ih, List.countP_map]
      have hcong : (List.range 7).countP
            ((fun r => gen_range 4 10 r == v) ∘ (fun r => 7 * n + r)) =
          (List.range 7).countP (fun r => gen_range 4 10 r == v) := by
        apply List.countP_congr
        intro r _
        simp [Function.comp, gen_range_period]
      rw [hcong, gen_range_count_window v h4 h10]

/-- Witness for C6 at v = 4 over N = 2 periods, and the bounds at r = 13. -/
theorem capture_delay_range_and_uniform_witness :
    (4 ≤ gen_range 4 10 13 ∧ gen_range 4 10 13 ≤ 10)
    ∧ (List.range (7 * 2)).countP (fun r => gen_range 4 10 r == 4) = 2 :=
  ⟨capture_delay_range_and_uniform.1 13,
   capture_delay_range_and_uniform.2 4 2 (by decide) (by decide)⟩

/-! ## The activity listener callback (activity_monitor.rs lines 27-48) -/

/-- The rdev event kinds matched by the listener callback; key and button
identities are opaque `Nat`s, pointer coordinates and wheel deltas `Int`s. -/
inductive EventType
  | keyPress (key : Nat)
  | keyRelease (key : Nat)
  | buttonPress (button : Nat)
  | buttonRelease (button : Nat)
  | mouseMove (x y : Int)
  | wheel (dx dy : Int)
deriving DecidableEq, Repr

/-- The two counters of `ActivityCounters`. -/
structure ActivityCounters where
  key_presses : Nat
  mouse_clicks : Nat
deriving DecidableEq, Repr

/-- The closure passed to `rdev::listen`: returns immediately when
`is_session_active` is false, otherwise increments the counter matching
the event kind and ignores every other kind. -/
def listenCallback (is_session_active : Bool) (counters : ActivityCounters)
    (e : EventType) : ActivityCounters :=
  if ¬is_session_active then counters
  else
    match e with
    | EventType.keyPress _ =>
        { counters with key_presses := counters.key_presses + 1 }
    | EventType.buttonPress _ =>
        { counters with mouse_clicks := counters.mouse_clicks + 1 }
    | _ => counters

/-- Whether an event is a key-down event. -/
def isKeyPress : EventType → Bool
  | EventType.keyPress _ => true
  | _ => false

/-- Whether an event is a pointer-button-down event. -/
def isButtonPress : EventType → Bool
  | EventType.buttonPress _ => true
  | _ => false

/-- Claim C7: per observed event, each counter either stays or grows by
exactly one; `key_presses` grows by one iff the event is a key-down and
counting is enabled; `mouse_clicks` grows by one iff the event is a
pointer-button-down and counting is enabled; any other event kind leaves
both counters (the whole record) unchanged. -/
theorem listenCallback_spec (flag : Bool) (c : ActivityCounters)
    (e : EventType) :
    ((listenCallback flag c e).key_presses = c.key_presses
      ∨ (listenCallback flag c e).key_presses = c.key_presses + 1)
    ∧ ((listenCallback flag c e).mouse_clicks = c.mouse_clicks
      ∨ (listenCallback flag c e).mouse_clicks = c.mouse_clicks + 1)
    ∧ ((listenCallback flag c e).key_presses = c.key_presses + 1 ↔
        flag = true ∧ isKeyPress e = true)
    ∧ ((listenCallback flag c e).mouse_clicks = c.mouse_clicks + 1 ↔
        flag = true ∧ isButtonPress e = true)
    ∧ (isKeyPress e = false → isButtonPress e = false →
        listenCallback flag c e = c) := by
  cases e <;> cases flag <;>
    simp [listenCallback, isKeyPress, isButtonPress]

/-- Witness for C7: an enabled key press increments `key_presses`, a
disabled mouse move leaves the counters untouched. -/
theorem listenCallback_spec_witness :
    (listenCallback true ⟨3, 5⟩ (EventType.keyPress 9)).key_presses = 3 + 1
    ∧ listenCallback false ⟨3, 5⟩ (EventType.mouseMove 1 2) = ⟨3, 5⟩
    ∧ listenCallback true ⟨3, 5⟩ (EventType.wheel 0 1) = ⟨3, 5⟩ :=
  ⟨(listenCallback_spec true ⟨3, 5⟩ (EventType.keyPress 9)).2.2.1.mpr
     ⟨rfl, rfl⟩,
   (listenCallback_spec false ⟨3, 5⟩ (EventType.mouseMove 1 2)).2.2.2.2
     rfl rfl,
   (listenCallback_spec true ⟨3, 5⟩ (EventType.wheel 0 1)).2.2.2.2
     rfl rfl⟩

/-! ## Base64 (the `base64` crate's STANDARD engine, as used in
`get_screenshot_data`)

Bytes are `Nat`s below 256.  The encoder maps each 3-byte group to four
alphabet characters and pads a trailing 1- or 2-byte group with `=`. -/

/-- Character for a six-bit group, per the standard base64 alphabet. -/
def b64Char (n : Nat) : Char :=
  if n < 26 then Char.ofNat (65 + n)
  else if n < 52 then Char.ofNat (97 + (n - 26))
  else if n < 62 then Char.ofNat (48 + (n - 52))
  else if n = 62 then '+'
  else '/'

/-- Inverse alphabet lookup. -/
def b64Index (c : Char) : Option Nat :=
  if 'A' ≤ c ∧ c ≤ 'Z' then some (c.toNat - 65)
  else if 'a' ≤ c ∧ c ≤ 'z' then some (c.toNat - 97 + 26)
  else if '0' ≤ c ∧ c ≤ '9' then some (c.toNat - 48 + 52)
  else if c = '+' then some 62
  else if c = '/' then some 63
  else none

theorem b64Index_b64Char (n : Nat) (h : n < 64) :
    b64Index (b64Char n) = some n :=
  (by decide : ∀ m : Fin 64, b64Index (b64Char m.1) = some m.1) ⟨n, h⟩

theorem b64Char_ne_pad (n : Nat) (h : n < 64) : b64Char n ≠ '=' :=
  (by decide : ∀ m : Fin 64, b64Char m.1 ≠ '=') ⟨n, h⟩

/-- Standard base64 encoding of a byte list. -/
def b64Encode : List Nat → List Char
  | [] => []
  | [a] => [b64Char (a / 4), b64Char (a % 4 * 16), '=', '=']
  | [a, b] => [b64Char (a / 4), b64Char (a % 4 * 16 + b / 16),
               b64Char (b % 16 * 4), '=']
  | a :: b :: c :: rest =>
      b64Char (a / 4) :: b64Char (a % 4 * 16 + b / 16) ::
        b64Char (b % 16 * 4 + c / 64) :: b64Char (c % 64) :: b64Encode rest

/-- Base64 decoding (padding-aware, lenient about unused padding bits). -/
def b64Decode : List Char → Option (List Nat)
  | [] => some []
  | w :: x :: y :: z :: rest =>
      match b64Index w, b64Index x with
      | some s0, some s1 =>
        if y = '=' then
          if z = '=' ∧ rest.isEmpty then some [s0 * 4 + s1 / 16] else none
        else
          match b64Index y with
          | some s2 =>
            if z = '=' then
              if rest.isEmpty then
                some [s0 * 4 + s1 / 16, s1 % 16 * 16 + s2 / 4]
              else none
            else
              match b64Index z, b64Decode rest with
              | some s3, some tail =>
                  some ((s0 * 4 + s1 / 16) :: (s1 % 16 * 16 + s2 / 4) ::
                    (s2 % 4 * 64 + s3) :: tail)
              | _, _ => none
          | none => none
      | _, _ => none
  | _ => none

theorem b64_roundtrip :
    ∀ (bs : List Nat), (∀ b ∈ bs, b < 256) →
      b64Decode (b64Encode bs) = some bs
  | [], _ => rfl
  | [a], h => by
    have ha : a < 256 := h a (by simp)
    have h1 := b64Index_b64Char (a / 4) (by omega)
    have h2 := b64Index_b64Char (a % 4 * 16) (by omega)
    simp only [b64Encode, b64Decode, h1, h2, List.isEmpty_nil, and_true,
      Option.some.injEq, List.cons.injEq, ite_true]
    omega
  | [a, b], h => by
    have ha : a < 256 := h a (by simp)
    have hb : b < 256 := h b (by simp)
    have h1 := b64Index_b64Char (a / 4) (by omega)
    have h2 := b64Index_b64Char (a % 4 * 16 + b / 16) (by omega)
    have h3 := b64Index_b64Char (b % 16 * 4) (by omega)
    have hne := b64Char_ne_pad (b % 16 * 4) (by omega)
    simp only [b64Encode, b64Decode, h1, h2, h3, List.isEmpty_nil, and_true,
      if_neg hne, Option.some.injEq, List.cons.injEq, ite_true]
    exact ⟨by omega, by omega⟩
  | a :: b :: c :: rest, h => by
    have ha : a < 256 := h a (by simp)
    have hb : b < 256 := h b (by simp)
    have hc : c < 256 := h c (by simp)
    have ih := b64_roundtrip rest fun x hx => h x (by simp [hx])
    have h1 := b64Index_b64Char (a / 4) (by omega)
    have h2 := b64Index_b64Char (a % 4 * 16 + b / 16) (by omega)
    have h3 := b64Index_b64Char (b % 16 * 4 + c / 64) (by omega)
    have h4 := b64Index_b64Char (c % 64) (by omega)
    have hne3 := b64Char_ne_pad (b % 16 * 4 + c / 64) (by omega)
    have hne4 := b64Char_ne_pad (c % 64) (by omega)
    simp only [b64Encode, b64Decode, h1, h2, h3, h4, ih, and_true,
      if_neg hne3, if_neg hne4, Option.some.injEq, List.cons.injEq]
    exact ⟨by omega, by omega, by omega⟩

/-! ## `get_screenshot_data` (main.rs lines 412-439) and the screenshot
insert of `capture_and_save` (main.rs lines 107-121) -/

/-- Hex-digit test for UUID parsing. -/
def isHexDigit (c : Char) : Bool :=
  ('0' ≤ c && c ≤ '9') || ('a' ≤ c && c ≤ 'f') || ('A' ≤ c && c ≤ 'F')

/-- Position check for the canonical hyphenated UUID form: hyphens at
indices 8, 13, 18 and 23, hex digits everywhere else. -/
def uuidCharOk (i : Nat) (c : Char) : Bool :=
  if i = 8 || i = 13 || i = 18 || i = 23 then c == '-' else isHexDigit c

/-- Model of the external uuid crate's `Uuid::parse_str` for the
36-character hyphenated form, normalising to the 32 lowercase hex digits
(the crate accepts further textual forms; `get_screenshot_data`'s control
flow depends only on success versus failure of the parse). -/
def parseUuid (s : String) : Option (List Char) :=
  let cs := s.toList
  if cs.length == 36 && (cs.enum.all fun p => uuidCharOk p.1 p.2) then
    some ((cs.filter fun c => c != '-').map Char.toLower)
  else none

/-- The `INSERT INTO screenshots` of `capture_and_save`, restricted to the
columns `get_screenshot_data` reads: the table keyed by screenshot id with
its `image_data` bytes. -/
def insertScreenshot (db : List (List Char × List Nat)) (id : List Char)
    (bytes : List Nat) : List (List Char × List Nat) :=
  (id, bytes) :: db

/-- `get_screenshot_data`: parse the id string (failing with
"Invalid UUID format" before touching the database), look the row up, and
return the PNG data URI whose base64 payload carries the stored bytes.
The `Bool` component records whether the database was queried. -/
def get_screenshot_data (db : List (List Char × List Nat)) (id : String) :
    Except String String × Bool :=
  match parseUuid id with
  | none => (Except.error "Invalid UUID format", false)
  | some u =>
    match db.find? fun row => row.1 == u with
    | some row =>
        (Except.ok ("data:image/png;base64," ++ String.mk (b64Encode row.2)), true)
    | none =>
        (Except.error ("Screenshot with ID " ++ String.mk u ++ " not found"), true)

/-- Claim C8: fetching a screenshot right after storing its bytes returns
the data URI whose base64 payload is the encoding of the stored bytes, and
decoding that payload gives back the original bytes byte-for-byte. -/
theorem screenshot_roundtrip (db : List (List Char × List Nat))
    (bytes : List Nat) (s : String) (u : List Char)
    (hb : ∀ b ∈ bytes, b < 256) (hp : parseUuid s = some u) :
    (get_screenshot_data (insertScreenshot db u bytes) s).1 =
        Except.ok ("data:image/png;base64," ++ String.mk (b64Encode bytes))
    ∧ b64Decode (b64Encode bytes) = some bytes := by
  constructor
  · simp [get_screenshot_data, insertScreenshot, hp, List.find?]
  · exact b64_roundtrip bytes hb

/-- Witness for C8 with bytes [0, 100, 255, 7] and a concrete UUID. -/
theorem screenshot_roundtrip_witness :
    (∀ b ∈ [0, 100, 255, 7], b < 256)
    ∧ parseUuid "01234567-89ab-cdef-0123-456789abcdef" =
        some "0123456789abcdef0123456789abcdef".toList
    ∧ ((get_screenshot_data
          (insertScreenshot [] "0123456789abcdef0123456789abcdef".toList
            [0, 100, 255, 7])
          "01234567-89ab-cdef-0123-456789abcdef").1 =
        Except.ok ("data:image/png;base64," ++
          String.mk (b64Encode [0, 100, 255, 7]))
      ∧ b64Decode (b64Encode [0, 100, 255, 7]) = some [0, 100, 255, 7]) :=
  ⟨by decide, by decide,
   screenshot_roundtrip [] [0, 100, 255, 7]
     "01234567-89ab-cdef-0123-456789abcdef"
     "0123456789abcdef0123456789abcdef".toList
     (by decide) (by decide)⟩

/-- Claim C10: for every id string the model parser rejects,
`get_screenshot_data` fails with the "Invalid UUID format" error and the
flag recording a database query is false — the failure happens before any
database access, and the (read-only) table is untouched. -/
theorem get_screenshot_data_invalid_uuid (db : List (List Char × List Nat))
    (s : String) (hp : parseUuid s = none) :
    get_screenshot_data db s = (Except.error "Invalid UUID format", false) := by
  simp [get_screenshot_data, hp]

/-- Witness for C10 on a non-UUID string against a nonempty table. -/
theorem get_screenshot_data_invalid_uuid_witness :
    parseUuid "hello" = none
    ∧ get_screenshot_data [(['a'], [1, 2])] "hello" =
        (Except.error "Invalid UUID format", false) :=
  ⟨by decide,
   get_screenshot_data_invalid_uuid [(['a'], [1, 2])] "hello" (by decide)⟩

end Avoda
